import Mathlib

/-!
Shallow embedding of the asynchronous ingestion-and-retrieval pipeline of the
`python-agents` repository, together with theorems settling the frozen claims
about it.

Conventions of the embedding:
* External effects (queue transport, blob storage, the document converter, the
  embedding API, the SQL / Qdrant backends, the filesystem, `json.loads`) are
  passed in as explicit environment records whose fields give the outcome of
  each external call; an `Except String _` value models a Python call that can
  raise (`.error` = the exception's `str(e)`).
* Strings that only matter through their UTF-8 byte length (queue payloads)
  are abstracted to that length as a `Nat`.
* Dictionaries read with `.get` are modelled as structures of `Option` fields.
-/

/-! ## Worker runtime (src/apps/worker/queue_worker.py) -/

/-- A queue message as the worker receives it (only its `content` matters). -/
structure QueueMsg where
  content : String
deriving Repr, DecidableEq

/-- The dictionary obtained from `json.loads` on a task message body, read via
`.get`: `task_type`, optional `task_id` override, optional `webhook_url`, and
the payload (kept opaque as its JSON rendering, `"{}"` when absent). -/
structure TaskData where
  taskType : Option String
  taskId : Option String
  webhookUrl : Option String
  payload : String
deriving Repr, DecidableEq

/-- A handler result dictionary `{status, result?, error?}` read via `.get`. -/
structure HandlerResult where
  status : Option String
  result : Option String
  error : Option String
deriving Repr, DecidableEq

/-- Environment of external effects for the worker runtime.
`parseJson` is `json.loads` (`none` = `JSONDecodeError`); `timesOut tt p` says
whether `asyncio.wait_for` times out on `handler.execute(payload)`;
`execute tt p` is the handler coroutine's own outcome (`.error` = it raises);
`webhookOk url` is whether the webhook POST succeeds. -/
structure WorkerEnv where
  parseJson : String → Option TaskData
  timesOut : String → String → Bool
  execute : String → String → Except String HandlerResult
  webhookOk : String → Bool

/-- Python `task_data_raw.split("|", 1)` guarded by `"|" in task_data_raw`:
without a bar the task id defaults to `"unknown"`. -/
def splitOnceBar (raw : String) : String × String :=
  match raw.splitOn "|" with
  | [] => ("unknown", raw)
  | [s] => ("unknown", s)
  | a :: rest => (a, String.intercalate "|" rest)

/-- The shared handler registry `{"ingest": ..., "summarize": ...}`:
`handlers.get(task_type)` is `some` exactly for these two keys. -/
def handlerExists (taskType : String) : Bool :=
  taskType == "ingest" || taskType == "summarize"

/-- Port of `parse_task_data`: split the optional `"<task_id>|"` prefix, parse
the JSON, require a truthy `task_type`, default the payload, and let a
`task_id` field in the JSON override the prefix. `.error` = `ValueError`. -/
def parseTaskData (env : WorkerEnv) (raw : String) :
    Except String (String × String × String × Option String) :=
  let p := splitOnceBar raw
  match env.parseJson p.2 with
  | none => .error "Invalid JSON in task data"
  | some td =>
    match td.taskType with
    | none => .error "Missing required field: task_type"
    | some tt =>
      if tt = "" then .error "Missing required field: task_type"
      else
        let tid := match td.taskId with
          | some t => t
          | none => p.1
        .ok (tid, tt, td.payload, td.webhookUrl)

/-- Port of `SingleTaskRunner.execute_with_timeout`: unknown task types are a
handled failure; `asyncio.TimeoutError` becomes a failed result naming the
timeout; any other exception becomes a failed result with its message. -/
def executeWithTimeout (env : WorkerEnv) (timeout : Nat) (taskType payload : String) :
    HandlerResult :=
  if handlerExists taskType = false then
    { status := some "failed", result := none,
      error := some ("Unknown task type: " ++ taskType) }
  else if env.timesOut taskType payload then
    { status := some "failed", result := none,
      error := some ("Task exceeded timeout of " ++ toString timeout ++ " seconds") }
  else
    match env.execute taskType payload with
    | .ok r => r
    | .error e => { status := some "failed", result := none, error := some e }

/-- Default single-task timeout: `int(os.getenv("WORKER_TASK_TIMEOUT", "1800"))`. -/
def DEFAULT_TASK_TIMEOUT : Nat := 1800

/-- Observable outcome of `SingleTaskRunner.run`. -/
structure RunTrace where
  exitCode : Nat
  handlerResult : Option HandlerResult
  webhookAttempted : Bool
deriving Repr, DecidableEq

/-- Port of `SingleTaskRunner.run`: parse failures exit 1 before any dispatch
or webhook; otherwise dispatch with timeout, send the webhook when a URL was
given (its success never changes the exit code), and exit 0 iff the result
status is `"completed"`. -/
def singleTaskRun (env : WorkerEnv) (timeout : Nat) (raw : String) : RunTrace :=
  match parseTaskData env raw with
  | .error _ => { exitCode := 1, handlerResult := none, webhookAttempted := false }
  | .ok (_, tt, payload, webhookUrl) =>
    let result := executeWithTimeout env timeout tt payload
    let sent := webhookUrl.isSome
    let code := if result.status = some "completed" then 0 else 1
    { exitCode := code, handlerResult := some result, webhookAttempted := sent }

/-- Observable outcome of `AsyncWorker.process_message`. `raised` records
whether an exception escaped the method (its `except` clauses catch all). -/
structure ProcessTrace where
  handlerRan : Bool
  webhookAttempted : Bool
  raised : Bool
deriving Repr, DecidableEq

/-- Port of `AsyncWorker.process_message`: split the id prefix, parse JSON
(a `JSONDecodeError` is logged and the method returns), look up the handler
(unknown types send a failure notification when a webhook URL is present),
run the handler, send the webhook; a raising handler is caught by the
loop-level `except` inside the method, so the method always returns. -/
def processMessage (env : WorkerEnv) (m : QueueMsg) : ProcessTrace :=
  let p := splitOnceBar m.content
  match env.parseJson p.2 with
  | none => { handlerRan := false, webhookAttempted := false, raised := false }
  | some td =>
    let tt := td.taskType.getD ""
    if handlerExists tt = false then
      { handlerRan := false, webhookAttempted := td.webhookUrl.isSome, raised := false }
    else
      match env.execute tt td.payload with
      | .ok _ => { handlerRan := true, webhookAttempted := td.webhookUrl.isSome, raised := false }
      | .error _ => { handlerRan := true, webhookAttempted := false, raised := false }

/-- Events observable from the polling loop `AsyncWorker.run`. -/
inductive WEvent where
  | receive (n : Nat)
  | processEnd (m : QueueMsg)
  | deleted (m : QueueMsg)
  | slept
deriving Repr, DecidableEq

/-- Trace of the `for message in messages` body: each message is processed
(always returning) and then deleted; a raising `delete_message` is caught by
the loop-level `except`, which sleeps and abandons the rest of the batch. -/
def msgsTrace (deleteOk : QueueMsg → Bool) : List QueueMsg → List WEvent
  | [] => []
  | m :: rest =>
    if deleteOk m then
      WEvent.processEnd m :: WEvent.deleted m :: msgsTrace deleteOk rest
    else
      [WEvent.processEnd m, WEvent.slept]

/-- Trace of one iteration of the polling loop: `none` models a raising
`receive_messages` (caught, sleep); an empty batch sleeps; otherwise the
batch is processed message by message. -/
def iterationTrace (deleteOk : QueueMsg → Bool) (batch : Option (List QueueMsg)) :
    List WEvent :=
  match batch with
  | none => [WEvent.slept]
  | some [] => [WEvent.slept]
  | some (m :: rest) =>
    WEvent.receive (rest.length + 1) :: msgsTrace deleteOk (m :: rest)

/-- Trace of finitely many iterations of `AsyncWorker.run`. -/
def workerTrace (deleteOk : QueueMsg → Bool) (batches : List (Option (List QueueMsg))) :
    List WEvent :=
  (batches.map (iterationTrace deleteOk)).flatten

/-- Occurrences of `deleted m` in a trace. -/
def delCount (m : QueueMsg) (tr : List WEvent) : Nat := tr.count (WEvent.deleted m)

/-- Occurrences of `processEnd m` in a trace. -/
def procCount (m : QueueMsg) (tr : List WEvent) : Nat := tr.count (WEvent.processEnd m)

/-- A trace never deletes a message more often than its processing has
completed, in any reachable state (any prefix). -/
def balancedTrace (tr : List WEvent) : Prop :=
  ∀ k m, delCount m (tr.take k) ≤ procCount m (tr.take k)

/-! ## Task queue submission (src/apps/worker/services/queue_service.py and
src/backend/services/queue_service.py)

Message strings are abstracted to their UTF-8 byte lengths: `bodyBytes` is the
length of `json.dumps({"task_type": ..., "payload": ...})` and `taskIdBytes`
the length of the `uuid4` task id (36 for a UUID). The wire envelope
`task_id + "|" + message` therefore has `taskIdBytes + 1 + bodyBytes` bytes. -/

/-- `MAX_MESSAGE_SIZE = 64 * 1024`, the Azure Queue hard limit. -/
def MAX_MESSAGE_SIZE : Nat := 64 * 1024

/-- Port of the worker revision's `_validate_message_size`: raises `ValueError`
when the given string (the JSON body, not the envelope) exceeds the limit. -/
def validateMessageSize (messageBytes : Nat) : Except String Unit :=
  if messageBytes > MAX_MESSAGE_SIZE then
    .error ("Message too large: " ++ toString messageBytes ++ " bytes (max " ++
      toString MAX_MESSAGE_SIZE ++ " bytes)")
  else .ok ()

/-- One attempt of the worker revision's `AzureQueueService.submit_task` body:
validate the JSON body size, then send `task_id + "|" + message`. Returns the
byte sizes of the messages actually handed to the transport, and the outcome
(`sendOk` = the transport call succeeds). -/
def azureSubmitOnce (sendOk : Bool) (taskIdBytes bodyBytes : Nat) :
    List Nat × Except String Unit :=
  match validateMessageSize bodyBytes with
  | .error e => ([], .error e)
  | .ok _ =>
    let envelope := taskIdBytes + 1 + bodyBytes
    if sendOk then ([envelope], .ok ()) else ([envelope], .error "transport error")

/-- Observable outcome of a submit call: byte sizes of messages sent to the
transport, backoff sleeps taken, and the final result. -/
structure SubmitTrace where
  sent : List Nat
  sleeps : List Nat
  outcome : Except String Unit
deriving Repr

/-- Port of `retry_with_backoff(max_retries=3, base_delay=1.0, max_delay=10.0)`
specialised to a submit attempt: it retries on any exception (including the
size `ValueError`), sleeping `min(base * 2^attempt, max)` = 1s then 2s. -/
def retry3 (attempt : Nat → List Nat × Except String Unit) : SubmitTrace :=
  match attempt 0 with
  | (s0, .ok r) => { sent := s0, sleeps := [], outcome := .ok r }
  | (s0, .error _) =>
    match attempt 1 with
    | (s1, .ok r) => { sent := s0 ++ s1, sleeps := [1], outcome := .ok r }
    | (s1, .error _) =>
      match attempt 2 with
      | (s2, .ok r) => { sent := s0 ++ s1 ++ s2, sleeps := [1, 2], outcome := .ok r }
      | (s2, .error e) => { sent := s0 ++ s1 ++ s2, sleeps := [1, 2], outcome := .error e }

/-- The worker revision's `AzureQueueService.submit_task`: the retry decorator
around `azureSubmitOnce`; `sendOk k` is whether the transport call of attempt
`k` succeeds. -/
def workerSubmitTask (sendOk : Nat → Bool) (taskIdBytes bodyBytes : Nat) : SubmitTrace :=
  retry3 (fun k => azureSubmitOnce (sendOk k) taskIdBytes bodyBytes)

/-- The backend revision's `AzureQueueService.submit_task`
(src/backend/services/queue_service.py lines 113-131): it builds the envelope
and sends it with no size validation and no retry wrapper. -/
def backendSubmitTask (sendOk : Bool) (taskIdBytes bodyBytes : Nat) :
    List Nat × Except String Unit :=
  let envelope := taskIdBytes + 1 + bodyBytes
  if sendOk then ([envelope], .ok ()) else ([envelope], .error "transport error")

/-- `SQSService.submit_task` (both revisions): sends the body with no size
validation (SQS has no `"<task_id>|"` prefix; the body is sent as-is). -/
def sqsSubmitTask (sendOk : Bool) (bodyBytes : Nat) : List Nat × Except String Unit :=
  if sendOk then ([bodyBytes], .ok ()) else ([bodyBytes], .error "transport error")

/-! ## Vector store (src/backend/services/vector_db.py) -/

/-- A vector of the deployment's fixed dimensionality (entries abstracted to
integers; their values never matter to the claims). -/
abbrev Vec := List Int

/-- A stored vector record `{id, vector, filename, document_set, content}`
(the `metadata` map is absorbed into `content`-irrelevant fields and omitted). -/
structure Point where
  pid : String
  vector : Vec
  filename : String
  documentSet : String
  content : String
deriving Repr, DecidableEq

/-- Environment for `VectorDBService`: `poolOk` = `get_pool()` returns a pool
(rather than `None` after a failed `create_pool`), `embedOk` = `embed_query`
succeeds, `queryOk` = SQL statements executed on the pool succeed,
`schemaVerified` = the `_schema_verified` flag. -/
structure DBEnv where
  poolOk : Bool
  embedOk : Bool
  queryOk : Bool
  schemaVerified : Bool
deriving Repr, DecidableEq

/-- A table row paired with the similarity score `1 - (vector <=> query)`
computed by the backend for the query at hand (scores abstracted to `Int`). -/
structure ScoredRow where
  filename : String
  documentSet : String
  content : String
  score : Int
deriving Repr, DecidableEq

/-- A search hit `{content, metadata: {filename, document_set}, score}`. -/
structure SearchHit where
  content : String
  filename : String
  documentSet : String
  score : Int
deriving Repr, DecidableEq

/-- Descending-score order on scored rows. -/
def scoreGe (a b : ScoredRow) : Prop := b.score ≤ a.score

instance : DecidableRel scoreGe := fun a b => Int.decLe b.score a.score

instance : IsTotal ScoredRow scoreGe := ⟨fun a b => Int.le_total b.score a.score⟩

instance : IsTrans ScoredRow scoreGe := ⟨fun _ _ _ h h2 => le_trans h2 h⟩

/-- The row of the `SELECT` projected into a search hit. -/
def toSearchHit (r : ScoredRow) : SearchHit :=
  { content := r.content, filename := r.filename,
    documentSet := r.documentSet, score := r.score }

/-- Descending-score order on search hits. -/
def hitScoreGe (a b : SearchHit) : Prop := b.score ≤ a.score

/-- Rows sorted by descending similarity, as `ORDER BY vector <=> $1` yields.
(`Modelled from the spec` for the backend's sort itself: the SQL engine is an
external collaborator; `ORDER BY ... LIMIT` is standard top-k semantics.) -/
def sortByScoreDesc (rows : List ScoredRow) : List ScoredRow :=
  rows.insertionSort scoreGe

/-- Port of `VectorDBService.search`: no pool, a failed embedding, or a failed
query each degrade to `[]`; otherwise filter by `document_set` unless it is
falsy or `"all"`, order by descending similarity, and take `limit` rows —
note: plain chunk rows, with no grouping by filename. -/
def vdbSearch (env : DBEnv) (rows : List ScoredRow) (lim : Nat) (documentSet : String) :
    List SearchHit :=
  if env.poolOk = false then []
  else if env.embedOk = false then []
  else if env.queryOk = false then []
  else
    let rows :=
      if documentSet ≠ "" ∧ documentSet ≠ "all" then
        rows.filter (fun r => r.documentSet == documentSet)
      else rows
    ((sortByScoreDesc rows).take lim).map toSearchHit

/-- Port of `VectorDBService.list_documents`: no pool or a failed query
degrade to `[]`; otherwise `LIMIT lim OFFSET off` over the table rows. -/
def vdbListDocuments (env : DBEnv) (store : List Point) (lim off : Nat) : List Point :=
  if env.poolOk = false then []
  else if env.queryOk = false then []
  else (store.drop off).take lim

/-- `INSERT ... ON CONFLICT (id) DO UPDATE` for a single record. -/
def upsertById (store : List Point) (p : Point) : List Point :=
  if store.any (fun q => q.pid == p.pid) then
    store.map (fun q => if q.pid == p.pid then p else q)
  else store ++ [p]

/-- Port of `VectorDBService.upsert_vectors`: a lazy `ensure_collection_exists`
raises when the pool is up but its DDL fails; then `if not pool or not points:
return` returns silently — even when the pool is unavailable — and only a
failure of the SQL execution itself propagates as an error. -/
def vdbUpsertVectors (env : DBEnv) (points : List Point) (store : List Point) :
    Except String Unit × List Point :=
  if env.schemaVerified = false ∧ env.poolOk = true ∧ env.queryOk = false then
    (.error "Failed to ensure vector table exists", store)
  else if env.poolOk = false ∨ points.isEmpty then (.ok (), store)
  else if env.queryOk = false then (.error "Upsert failed", store)
  else (.ok (), points.foldl upsertById store)

/-- Port of `VectorDBService.delete_document`: `if not pool: return` returns
silently; a failed `DELETE` raises; otherwise delete every row of the filename,
scoped to `document_set` unless that is falsy or `"all"`. -/
def vdbDeleteDocument (env : DBEnv) (filename documentSet : String)
    (store : List Point) : Except String Unit × List Point :=
  if env.poolOk = false then (.ok (), store)
  else if env.queryOk = false then (.error "Delete failed", store)
  else if documentSet ≠ "" ∧ documentSet ≠ "all" then
    (.ok (), store.filter (fun p => !(p.filename == filename && p.documentSet == documentSet)))
  else
    (.ok (), store.filter (fun p => !(p.filename == filename)))

/-! ## Grouped search (src/backend/sync_agent.py) -/

/-- First occurrences, in order, of the elements of a list. -/
def firstOccurrences : List String → List String
  | [] => []
  | f :: rest => f :: (firstOccurrences rest).filter (fun g => g ≠ f)

/-- Modelled from the spec: Qdrant's `query_points_groups(group_by="filename",
limit, group_size)` — the Qdrant server is an external collaborator, so its
documented semantics are embedded here: hits are ordered by descending
similarity, grouped by `filename`, groups ordered by their best hit, at most
`lim` groups, each holding at most `groupSize` best hits of its filename. -/
def queryPointsGroups (rows : List ScoredRow) (lim groupSize : Nat) :
    List (String × List ScoredRow) :=
  let sorted := sortByScoreDesc rows
  ((firstOccurrences (sorted.map (fun r => r.filename))).take lim).map
    (fun f => (f, (sorted.filter (fun r => r.filename == f)).take groupSize))

/-- A flattened grouped hit `{content, metadata: {filename}}`. -/
structure DocHit where
  content : String
  filename : String
deriving Repr, DecidableEq

/-- The flattening of one grouped hit into `{content, metadata: {filename}}`. -/
def toDocHit (r : ScoredRow) : DocHit :=
  { content := r.content, filename := r.filename }

/-- Port of `search_documents` (src/backend/sync_agent.py): with a missing API
key or collection it returns `[]`; otherwise it queries grouped by filename
with `group_size=3` and flattens the groups in order. -/
def searchDocuments (ok : Bool) (rows : List ScoredRow) (lim : Nat) : List DocHit :=
  if ok = false then []
  else ((queryPointsGroups rows lim 3).map (fun g => g.2.map toDocHit)).flatten

/-! ## Ingestion pipeline (src/backend/async_tasks.py `ingest_docs_task` and
src/backend/services/ingestion.py `IngestionService.process_file`) -/

/-- One file item of `files_data`: `content` is abstracted to its byte length
(`none` = key absent); Python's `if content:` is falsy for empty bytes. -/
structure FileItem where
  filename : String
  contentLen : Option Nat
  filepath : Option String
  documentSet : Option String
deriving Repr, DecidableEq

/-- Python truthiness of an optional bytes value abstracted to its length. -/
def truthyContent : Option Nat → Bool
  | some (_ + 1) => true
  | _ => false

/-- Environment of external effects for one file of the ingestion pipeline:
`countOk` = the Qdrant `count` call does not raise; `fileExists` / `fileSize`
are `os.path.exists` / `os.path.getsize`; `derivedDocSet` is the document set
computed from `MONITORED_DIR` when the item carries none (`"default"` unless a
subdirectory applies); `xlsRead` = `pd.read_excel`; `xlsxWrite` = writing the
temporary `.xlsx` via `pd.ExcelWriter`; `convert` = `converter.convert` +
`export_to_markdown`; `split` = `splitter.split_text`; `embedTry k` = outcome
of the embedding API call on attempt `k`; `upsert i` = outcome of upserting
the batch starting at chunk index `i`; `uuid i` = the `uuid4` drawn for chunk
`i`. -/
structure PipeEnv where
  countOk : Bool
  fileExists : String → Bool
  fileSize : String → Nat
  derivedDocSet : String
  xlsRead : Except String Unit
  xlsxWrite : Except String Unit
  convert : Except String String
  split : String → List String
  embedTry : Nat → Except String (List Vec)
  upsert : Nat → Except String Unit
  uuid : Nat → String

/-- The deduplication count of `ingest_docs_task`: a Qdrant `count` with the
filter `must=[FieldCondition(key="filename", ...)]` — it keys on the filename
alone, not on the `(filename, document_set)` pair. -/
def qdrantCountByFilename (store : List Point) (filename : String) : Nat :=
  (store.filter (fun p => p.filename == filename)).length

/-- Python `str.strip()`, written over the character list so that it
evaluates by kernel reduction. -/
def strTrim (s : String) : String :=
  String.mk (((s.data.dropWhile Char.isWhitespace).reverse.dropWhile
    Char.isWhitespace).reverse)

/-- Python `filename.lower().endswith('.xls')`, written over the character
list so that it evaluates by kernel reduction. -/
def isXls (filename : String) : Bool :=
  (filename.data.map Char.toLower).reverse.take 4 == ".xls".data.reverse

/-- Python `[str(c) for c in chunks if c and str(c).strip()]`. -/
def sanitizeChunks (cs : List String) : List String :=
  cs.filter (fun c => !(c == "") && !(strTrim c == ""))

/-- `document_set = file_item.get('document_set'); if not document_set: ...`
— a missing or empty value falls back to the derived one. -/
def resolveDocSet (derived : String) : Option String → String
  | some d => if d = "" then derived else d
  | none => derived

/-- The embedding retry loop of `ingest_docs_task` (lines 303-316):
`for attempt in range(3)` with `time.sleep(2 * (attempt + 1))` between failed
attempts and a `raise` on the third failure. Returns the outcome, the number
of attempts made, and the sleeps taken (in seconds). -/
def embedStage (env : PipeEnv) : Except String (List Vec) × Nat × List Nat :=
  match env.embedTry 0 with
  | .ok v => (.ok v, 1, [])
  | .error _ =>
    match env.embedTry 1 with
    | .ok v => (.ok v, 2, [2])
    | .error _ =>
      match env.embedTry 2 with
      | .ok v => (.ok v, 3, [2, 4])
      | .error e => (.error e, 3, [2, 4])

/-- Chunk indices at which upsert batches start: `range(0, len(points), 64)`. -/
def batchStarts (n : Nat) : List Nat :=
  (List.range ((n + 63) / 64)).map (fun k => k * 64)

/-- Build one `PointStruct` per chunk, taking `vectors[i]`; Python raises
`IndexError` when the embedding response has fewer vectors than chunks. -/
def buildPoints (env : PipeEnv) (filename ds : String) (chunks : List String)
    (vecs : List Vec) : Except String (List Point) :=
  if chunks.length ≤ vecs.length then
    .ok ((List.range chunks.length).map (fun i =>
      { pid := env.uuid i, vector := vecs.getD i [], filename := filename,
        documentSet := ds, content := chunks.getD i "" }))
  else .error "list index out of range"

/-- The batched-upsert loop of `ingest_docs_task` (lines 326-336): a failing
first batch (`i == 0`) re-raises and aborts; a failing later batch is only
logged and the loop continues; successful batches are appended to the store.
Returns the exceptional outcome, the updated store, and the start indices of
the batches attempted. -/
def runBatchesIngest (env : PipeEnv) (points : List Point) :
    List Nat → List Point → List Nat → Except String Unit × List Point × List Nat
  | [], store, calls => (.ok (), store, calls)
  | i :: rest, store, calls =>
    match env.upsert i with
    | .ok _ =>
      runBatchesIngest env points rest (store ++ (points.drop i).take 64) (calls ++ [i])
    | .error e =>
      if i == 0 then (.error e, store, calls ++ [i])
      else runBatchesIngest env points rest store (calls ++ [i])

/-- The batched-upsert loop of `IngestionService.process_file` (lines 137-143):
`process_file` is a synchronous `def` while `db_service.upsert_vectors` is an
`async def`, and line 141 calls it without `await` — each iteration only
slices the batch and creates a coroutine object that is immediately
discarded, so the upsert never executes, never raises (the `except` at line
142 that would return `Upsert failed for batch <i>` is dead code) and never
writes. The loop records the batch start indices it iterates over and leaves
the store unchanged. -/
def runBatchesProc (points : List Point) :
    List Nat → List Point → List Nat → List Point × List Nat
  | [], store, calls => (store, calls)
  | i :: rest, store, calls => runBatchesProc points rest store (calls ++ [i])

/-- Observable outcome of one `ingest_docs_task` file iteration: the result
string appended to `results`, the Qdrant store afterwards, the sleeps taken,
the number of embedding attempts, whether conversion was invoked, the batch
start indices attempted, and whether the temporary `.xlsx` artifact is left
on disk after the iteration. -/
structure IngestTrace where
  result : String
  store : List Point
  sleeps : List Nat
  embedCalls : Nat
  convertCalled : Bool
  upsertCalls : List Nat
  tempLeaked : Bool
deriving Repr, DecidableEq

/-- Helper assembling an `IngestTrace` for an exit before the embedding step. -/
def earlyExit (result : String) (store : List Point) (convertCalled tempLeaked : Bool) :
    IngestTrace :=
  { result := result, store := store, sleeps := [], embedCalls := 0,
    convertCalled := convertCalled, upsertCalls := [], tempLeaked := tempLeaked }

/-- The pipeline tail of `ingest_docs_task` from conversion onwards, given the
resolved document set and whether a temp `.xlsx` was created; the `finally`
block removes a created temp file on every one of these exits, so none leaks. -/
def ingestAfterSource (env : PipeEnv) (filename ds : String) (store : List Point) :
    IngestTrace :=
  match env.convert with
  | .error e => earlyExit ("Failed " ++ filename ++ ": " ++ e) store true false
  | .ok markdown =>
    match sanitizeChunks (env.split markdown) with
    | [] => earlyExit ("Skipped " ++ filename ++ ": No content extracted.") store true false
    | c :: cs =>
      let chunks := c :: cs
      match embedStage env with
      | (.error e, calls, sleeps) =>
        { result := "Failed " ++ filename ++ ": " ++ e, store := store, sleeps := sleeps,
          embedCalls := calls, convertCalled := true, upsertCalls := [], tempLeaked := false }
      | (.ok vecs, calls, sleeps) =>
        match buildPoints env filename ds chunks vecs with
        | .error e =>
          { result := "Failed " ++ filename ++ ": " ++ e, store := store, sleeps := sleeps,
            embedCalls := calls, convertCalled := true, upsertCalls := [], tempLeaked := false }
        | .ok points =>
          match runBatchesIngest env points (batchStarts points.length) store [] with
          | (.error e, store2, bcalls) =>
            { result := "Failed " ++ filename ++ ": " ++ e, store := store2,
              sleeps := sleeps, embedCalls := calls, convertCalled := true,
              upsertCalls := bcalls, tempLeaked := false }
          | (.ok _, store2, bcalls) =>
            let n := chunks.length
            { result := "Indexed " ++ filename ++ ": " ++ toString n ++ " chunks.",
              store := store2, sleeps := sleeps, embedCalls := calls,
              convertCalled := true, upsertCalls := bcalls, tempLeaked := false }

/-- Port of one file iteration of `ingest_docs_task` (lines 188-350): the
filename-keyed dedup check first (a raising `count` is ignored), then source
resolution with the zero-byte / missing-file skips, the `.xls`
pre-normalization (the temp `.xlsx` is created on disk before `pd.ExcelWriter`
runs, but `temp_file_to_cleanup` is assigned only after the writer succeeds,
so a failing writer leaks the artifact past the `finally` block), and the
conversion / chunking / embedding / batched-upsert tail. -/
def ingestDocsOne (env : PipeEnv) (item : FileItem) (store : List Point) : IngestTrace :=
  let filename := item.filename
  if env.countOk = true ∧ 0 < qdrantCountByFilename store filename then
    earlyExit ("Skipped " ++ filename ++ ": Already indexed.") store false false
  else
    let ds := resolveDocSet env.derivedDocSet item.documentSet
    if truthyContent item.contentLen then
      if isXls filename then
        match env.xlsRead with
        | .error e =>
          earlyExit ("Failed to convert .xls " ++ filename ++ ": " ++ e) store false false
        | .ok _ =>
          match env.xlsxWrite with
          | .error e =>
            earlyExit ("Failed to convert .xls " ++ filename ++ ": " ++ e) store false true
          | .ok _ => ingestAfterSource env filename ds store
      else ingestAfterSource env filename ds store
    else
      match item.filepath with
      | none =>
        earlyExit ("Skipped " ++ filename ++ ": No content or filepath provided.") store false false
      | some fp =>
        if env.fileExists fp = false then
          earlyExit ("Failed " ++ filename ++ ": File not found at " ++ fp) store false false
        else if env.fileSize fp == 0 then
          earlyExit ("Skipped " ++ filename ++ ": 0-byte file at " ++ fp) store false false
        else if isXls filename then
          match env.xlsRead with
          | .error e =>
            earlyExit ("Failed to convert .xls " ++ filename ++ ": " ++ e) store false false
          | .ok _ =>
            match env.xlsxWrite with
            | .error e =>
              earlyExit ("Failed to convert .xls " ++ filename ++ ": " ++ e) store false true
            | .ok _ => ingestAfterSource env filename ds store
        else ingestAfterSource env filename ds store

/-- Observable outcome of `IngestionService.process_file`: `result` is `.ok`
with the returned outcome string or `.error` when an exception escapes the
method (it has no outer catch-all around the point-building loop). -/
structure ProcTrace where
  result : Except String String
  store : List Point
  embedCalls : Nat
  convertCalled : Bool
  upsertCalls : List Nat
  tempLeaked : Bool
deriving Repr

/-- Helper assembling a `ProcTrace` for an exit before the embedding step. -/
def procEarly (result : Except String String) (store : List Point)
    (convertCalled tempLeaked : Bool) : ProcTrace :=
  { result := result, store := store, embedCalls := 0,
    convertCalled := convertCalled, upsertCalls := [], tempLeaked := tempLeaked }

/-- The tail of `process_file` from conversion onwards. The temp `.xlsx`
(present iff `tempOnDisk`) is removed only on the success path of the
conversion `try` block (lines 101-105): a raising `converter.convert` returns
`Conversion failed` with the artifact still on disk. There is no dedup check
anywhere in `process_file`, the embedding call is made exactly once, and the
batched upsert never executes (its un-awaited coroutines are discarded), so
on reaching it the call always returns `Indexed` with the store unchanged. -/
def procAfterSource (env : PipeEnv) (filename ds : String) (tempOnDisk : Bool)
    (store : List Point) : ProcTrace :=
  match env.convert with
  | .error e =>
    procEarly (.ok ("Conversion failed for " ++ filename ++ ": " ++ e)) store true tempOnDisk
  | .ok markdown =>
    match sanitizeChunks (env.split markdown) with
    | [] =>
      procEarly (.ok ("Skipped " ++ filename ++ ": No content extracted.")) store true false
    | c :: cs =>
      let chunks := c :: cs
      match env.embedTry 0 with
      | .error e =>
        { result := .ok ("Embedding failed for " ++ filename ++ ": " ++ e), store := store,
          embedCalls := 1, convertCalled := true, upsertCalls := [], tempLeaked := false }
      | .ok vecs =>
        match buildPoints env filename ds chunks vecs with
        | .error e =>
          { result := .error e, store := store, embedCalls := 1,
            convertCalled := true, upsertCalls := [], tempLeaked := false }
        | .ok points =>
          match runBatchesProc points (batchStarts points.length) store [] with
          | (store2, bcalls) =>
            let n := chunks.length
            { result := .ok ("Indexed " ++ filename ++ ": " ++ toString n ++ " chunks."),
              store := store2, embedCalls := 1, convertCalled := true,
              upsertCalls := bcalls, tempLeaked := false }

/-- Port of `IngestionService.process_file` (src/backend/services/ingestion.py
lines 55-146): the `.xls` pre-normalization assigns `temp_file_to_cleanup`
before `pd.ExcelWriter` runs, and every exception inside the conversion `try`
returns an outcome string without removing the artifact; cleanup happens only
after a successful conversion. -/
def processFile (env : PipeEnv) (filename : String) (contentLen : Option Nat)
    (filepath : Option String) (ds : String) (store : List Point) : ProcTrace :=
  if isXls filename then
    match env.xlsRead with
    | .error e =>
      procEarly (.ok ("Failed to convert .xls " ++ filename ++ ": " ++ e)) store false false
    | .ok _ =>
      match env.xlsxWrite with
      | .error e =>
        procEarly (.ok ("Failed to convert .xls " ++ filename ++ ": " ++ e)) store false true
      | .ok _ => procAfterSource env filename ds true store
  else if truthyContent contentLen then
    procAfterSource env filename ds false store
  else
    match filepath with
    | some _ => procAfterSource env filename ds false store
    | none => procEarly (.ok "No content or filepath provided.") store false false

/-! ## Concrete environments used by witnesses and counterexamples -/

/-- A worker environment whose `json.loads` always fails (poison message). -/
def wenvPoison : WorkerEnv :=
  { parseJson := fun _ => none, timesOut := fun _ _ => false,
    execute := fun _ _ => .error "boom", webhookOk := fun _ => true }

/-- A worker environment that parses to an `ingest` task and times out. -/
def wenvTimeout : WorkerEnv :=
  { parseJson := fun _ => some ⟨some "ingest", some "t1", none, "p"⟩,
    timesOut := fun _ _ => true,
    execute := fun _ _ => .ok ⟨some "completed", some "r", none⟩,
    webhookOk := fun _ => true }

/-- A worker environment that parses to an unknown task type. -/
def wenvUnknown : WorkerEnv :=
  { parseJson := fun _ => some ⟨some "transcode", some "t2", none, "p"⟩,
    timesOut := fun _ _ => false,
    execute := fun _ _ => .ok ⟨some "completed", some "r", none⟩,
    webhookOk := fun _ => true }

/-- A pipeline environment in which every external call succeeds. -/
def pipeEnvOk : PipeEnv :=
  { countOk := true, fileExists := fun _ => true, fileSize := fun _ => 1,
    derivedDocSet := "default", xlsRead := .ok (), xlsxWrite := .ok (),
    convert := .ok "hello world", split := fun s => [s],
    embedTry := fun _ => .ok [[1]], upsert := fun _ => .ok (),
    uuid := fun i => "u" ++ toString i }

/-- A pipeline environment producing 200 chunks whose second upsert batch
(start index 64) fails. -/
def pipeEnv200 : PipeEnv :=
  { pipeEnvOk with
    split := fun _ => List.replicate 200 "x",
    embedTry := fun _ => .ok (List.replicate 200 [1]),
    upsert := fun i => if i == 64 then .error "boom" else .ok () }

/-- A pipeline environment whose embedding API fails on every attempt. -/
def pipeEnvEmbedFail : PipeEnv :=
  { pipeEnvOk with embedTry := fun k => .error ("embed error " ++ toString k) }

/-- A pipeline environment whose document conversion raises. -/
def pipeEnvConvFail : PipeEnv :=
  { pipeEnvOk with convert := .error "conversion boom" }

/-- A pipeline environment whose first upsert batch fails. -/
def pipeEnvUps0Fail : PipeEnv :=
  { pipeEnvOk with upsert := fun i => if i == 0 then .error "boom0" else .ok () }

/-- A pipeline environment whose embedding API fails once, then succeeds. -/
def pipeEnvEmbedFlaky : PipeEnv :=
  { pipeEnvOk with embedTry := fun k => if k == 0 then .error "transient" else .ok [[1]] }

/-- A chunk of document `a.txt` stored under document set `"x"`. -/
def ptA : Point :=
  { pid := "p0", vector := [1], filename := "a.txt", documentSet := "x", content := "c" }

/-- A vector-store environment with everything available. -/
def dbEnvOk : DBEnv :=
  { poolOk := true, embedOk := true, queryOk := true, schemaVerified := true }

/-- A vector-store environment whose connection pool cannot be created. -/
def dbEnvNoPool : DBEnv :=
  { poolOk := false, embedOk := true, queryOk := true, schemaVerified := true }

/-- Five scored chunk rows of one and the same document `"a"`. -/
def rowsA5 : List ScoredRow :=
  [⟨"a", "s", "c1", 9⟩, ⟨"a", "s", "c2", 8⟩, ⟨"a", "s", "c3", 7⟩,
   ⟨"a", "s", "c4", 6⟩, ⟨"a", "s", "c5", 5⟩]

/-! ## Theorems: worker runtime (C3, C6, C10) -/

theorem balanced_nil : balancedTrace [] := by
  intro k m
  simp [delCount, procCount]

theorem balanced_append {s t : List WEvent} (hs : balancedTrace s) (ht : balancedTrace t) :
    balancedTrace (s ++ t) := by
  intro k m
  rw [List.take_append_eq_append_take]
  unfold delCount procCount
  rw [List.count_append, List.count_append]
  exact Nat.add_le_add (hs k m) (ht (k - s.length) m)

theorem balanced_cons_nondelete {tr : List WEvent} {e : WEvent}
    (hd : ∀ m, e ≠ WEvent.deleted m) (h : balancedTrace tr) :
    balancedTrace (e :: tr) := by
  intro k m
  cases k with
  | zero => simp [delCount, procCount]
  | succ k =>
    rw [List.take_succ_cons]
    unfold delCount procCount
    rw [List.count_cons, List.count_cons]
    have hde : (e == WEvent.deleted m) = false := by
      cases e <;> simp_all
    rw [hde]
    simp only [Bool.false_eq_true, if_false]
    exact le_trans (h k m) (Nat.le_add_right _ _)

theorem balanced_cons_pair {tr : List WEvent} (m0 : QueueMsg) (h : balancedTrace tr) :
    balancedTrace (WEvent.processEnd m0 :: WEvent.deleted m0 :: tr) := by
  intro k m
  match k with
  | 0 => simp [delCount, procCount]
  | 1 => simp [delCount, procCount, List.count_cons]
  | (k + 2) =>
    rw [List.take_succ_cons, List.take_succ_cons]
    have hk := h k m
    unfold delCount procCount at hk ⊢
    rw [List.count_cons, List.count_cons, List.count_cons, List.count_cons]
    by_cases hm : m0 = m
    · subst hm
      simp
      omega
    · have h1 : (WEvent.deleted m0 == WEvent.deleted m) = false := by simp [hm]
      have h2 : (WEvent.processEnd m0 == WEvent.processEnd m) = false := by simp [hm]
      have h3 : (WEvent.processEnd m0 == WEvent.deleted m) = false := by simp
      have h4 : (WEvent.deleted m0 == WEvent.processEnd m) = false := by simp
      simp only [h1, h2, h3, h4, if_false]
      omega

theorem msgsTrace_balanced (deleteOk : QueueMsg → Bool) (msgs : List QueueMsg) :
    balancedTrace (msgsTrace deleteOk msgs) := by
  induction msgs with
  | nil => exact balanced_nil
  | cons m rest ih =>
    unfold msgsTrace
    by_cases hdel : deleteOk m
    · rw [if_pos hdel]
      exact balanced_cons_pair m ih
    · rw [if_neg hdel]
      exact balanced_cons_nondelete (by intro x; simp)
        (balanced_cons_nondelete (by intro x; simp) balanced_nil)

theorem iterationTrace_balanced (deleteOk : QueueMsg → Bool)
    (batch : Option (List QueueMsg)) : balancedTrace (iterationTrace deleteOk batch) := by
  unfold iterationTrace
  match batch with
  | none => exact balanced_cons_nondelete (by intro x; simp) balanced_nil
  | some [] => exact balanced_cons_nondelete (by intro x; simp) balanced_nil
  | some (m :: rest) =>
    exact balanced_cons_nondelete (by intro x; simp) (msgsTrace_balanced deleteOk (m :: rest))

theorem workerTrace_balanced (deleteOk : QueueMsg → Bool)
    (batches : List (Option (List QueueMsg))) :
    balancedTrace (workerTrace deleteOk batches) := by
  induction batches with
  | nil => exact balanced_nil
  | cons b bs ih =>
    have hcons : workerTrace deleteOk (b :: bs) =
        iterationTrace deleteOk b ++ workerTrace deleteOk bs := by
      unfold workerTrace
      rw [List.map_cons, List.flatten_cons]
    rw [hcons]
    exact balanced_append (iterationTrace_balanced deleteOk b) ih

/-- C3: At-least-once delivery in continuous-polling mode. In every reachable
state of the polling loop (every prefix of every worker trace), a message has
been deleted at most as often as its processing has completed — deletion never
precedes the completion of `process_message` for that message — and
`process_message` itself always returns (success or handled failure), so the
deletion that follows it in the loop body happens only after it has returned;
a crash mid-processing (a trace prefix ending before `processEnd`) leaves the
message undeleted and hence visible for redelivery. -/
theorem C3_at_least_once_delivery :
    (∀ (deleteOk : QueueMsg → Bool) (batches : List (Option (List QueueMsg))),
      balancedTrace (workerTrace deleteOk batches)) ∧
    (∀ (env : WorkerEnv) (m : QueueMsg), (processMessage env m).raised = false) := by
  constructor
  · exact workerTrace_balanced
  · intro env m
    simp only [processMessage]
    rcases hp : env.parseJson (splitOnceBar m.content).2 with _ | td <;> simp only [hp]
    by_cases hh : handlerExists (td.taskType.getD "") = false
    · simp [hh]
    · simp only [hh]
      rcases he : env.execute (td.taskType.getD "") td.payload with e | r <;> simp [he]

/-- C6: Single-shot exit-code contract. The default timeout is 1800 seconds;
the runner exits 0 iff the dispatched result's status is `"completed"`; a
parse failure exits 1 with no dispatched result and no webhook; an unknown
task type yields the handled failure `Unknown task type: <tt>` and exit 1; a
timeout yields a failed result whose error names the timeout and exit 1. -/
theorem C6_single_shot_exit_codes :
    DEFAULT_TASK_TIMEOUT = 1800 ∧
    ∀ (env : WorkerEnv) (t : Nat) (raw : String),
      ((singleTaskRun env t raw).exitCode = 0 ↔
        ∃ r, (singleTaskRun env t raw).handlerResult = some r ∧
          r.status = some "completed") ∧
      (∀ e, parseTaskData env raw = .error e →
        singleTaskRun env t raw =
          { exitCode := 1, handlerResult := none, webhookAttempted := false }) ∧
      (∀ tid tt p w, parseTaskData env raw = .ok (tid, tt, p, w) →
        handlerExists tt = false →
        (singleTaskRun env t raw).handlerResult =
          some { status := some "failed", result := none,
                 error := some ("Unknown task type: " ++ tt) } ∧
        (singleTaskRun env t raw).exitCode = 1) ∧
      (∀ tid tt p w, parseTaskData env raw = .ok (tid, tt, p, w) →
        handlerExists tt = true → env.timesOut tt p = true →
        (singleTaskRun env t raw).handlerResult =
          some { status := some "failed", result := none,
                 error := some ("Task exceeded timeout of " ++ toString t ++ " seconds") } ∧
        (singleTaskRun env t raw).exitCode = 1) := by
  refine ⟨rfl, ?_⟩
  intro env t raw
  refine ⟨?_, ?_, ?_, ?_⟩
  · rcases hp : parseTaskData env raw with e | ⟨tid, tt, p, w⟩
    · simp [singleTaskRun, hp]
    · simp only [singleTaskRun, hp]
      by_cases hs : (executeWithTimeout env t tt p).status = some "completed"
      · simp [hs]
      · simp [hs]
  · intro e hp
    simp [singleTaskRun, hp]
  · intro tid tt p w hp hh
    simp [singleTaskRun, hp, executeWithTimeout, hh]
  · intro tid tt p w hp hh ht
    simp [singleTaskRun, hp, executeWithTimeout, hh, ht]

theorem C6_single_shot_exit_codes_witness :
    parseTaskData wenvTimeout "x" = .ok ("t1", "ingest", "p", none) ∧
    handlerExists "ingest" = true ∧
    wenvTimeout.timesOut "ingest" "p" = true ∧
    (singleTaskRun wenvTimeout 1800 "x").handlerResult =
      some { status := some "failed", result := none,
             error := some "Task exceeded timeout of 1800 seconds" } ∧
    (singleTaskRun wenvTimeout 1800 "x").exitCode = 1 :=
  ⟨rfl, rfl, rfl,
    ((C6_single_shot_exit_codes.2 wenvTimeout 1800 "x").2.2.2 "t1" "ingest" "p" none
      rfl rfl rfl).1,
    ((C6_single_shot_exit_codes.2 wenvTimeout 1800 "x").2.2.2 "t1" "ingest" "p" none
      rfl rfl rfl).2⟩

/-- C10: A polling-mode message whose body is not valid JSON is logged,
`process_message` returns normally without running a handler or sending a
webhook, and the worker loop then deletes it exactly like a successfully
processed message before continuing with the rest of the batch — the poison
message is consumed, never retried. -/
theorem C10_poison_message_consumed :
    ∀ (env : WorkerEnv) (m : QueueMsg) (deleteOk : QueueMsg → Bool)
      (rest : List QueueMsg),
      env.parseJson (splitOnceBar m.content).2 = none →
      processMessage env m =
        { handlerRan := false, webhookAttempted := false, raised := false } ∧
      (deleteOk m = true →
        iterationTrace deleteOk (some (m :: rest)) =
          WEvent.receive (rest.length + 1) :: WEvent.processEnd m ::
            WEvent.deleted m :: msgsTrace deleteOk rest) := by
  intro env m deleteOk rest hjson
  constructor
  · simp only [processMessage, hjson]
  · intro hdel
    simp [iterationTrace, msgsTrace, hdel]

theorem C10_poison_message_consumed_witness :
    wenvPoison.parseJson (splitOnceBar (QueueMsg.mk "not json").content).2 = none ∧
    (processMessage wenvPoison (QueueMsg.mk "not json") =
        { handlerRan := false, webhookAttempted := false, raised := false } ∧
      ((fun _ => true : QueueMsg → Bool) (QueueMsg.mk "not json") = true →
        iterationTrace (fun _ => true) (some [QueueMsg.mk "not json"]) =
          WEvent.receive 1 :: WEvent.processEnd (QueueMsg.mk "not json") ::
            WEvent.deleted (QueueMsg.mk "not json") :: msgsTrace (fun _ => true) [])) :=
  ⟨rfl, C10_poison_message_consumed wenvPoison (QueueMsg.mk "not json") (fun _ => true) [] rfl⟩

/-! ## Theorems: queue payload ceiling (C5) -/

/-- C5 (amended): only the worker revision's `AzureQueueService.submit_task`
validates message size, and it validates the JSON body alone — without the
`"<task_id>|"` prefix of the wire envelope. A body over 64 KiB makes every
retry attempt raise `ValueError` before any transport send (so nothing is
ever sent and nothing is truncated); a body within 64 KiB is sent even when
the full envelope exceeds 64 KiB; the backend revision's Azure implementation
and the SQS implementation send with no size check at all. -/
theorem C5_payload_ceiling :
    ∀ (sendOk : Nat → Bool) (ok : Bool) (taskIdBytes bodyBytes : Nat),
      (bodyBytes > MAX_MESSAGE_SIZE →
        workerSubmitTask sendOk taskIdBytes bodyBytes =
          { sent := [], sleeps := [1, 2],
            outcome := .error ("Message too large: " ++ toString bodyBytes ++
              " bytes (max " ++ toString MAX_MESSAGE_SIZE ++ " bytes)") }) ∧
      (bodyBytes ≤ MAX_MESSAGE_SIZE → sendOk 0 = true →
        workerSubmitTask sendOk taskIdBytes bodyBytes =
          { sent := [taskIdBytes + 1 + bodyBytes], sleeps := [], outcome := .ok () }) ∧
      (backendSubmitTask ok taskIdBytes bodyBytes).1 = [taskIdBytes + 1 + bodyBytes] ∧
      (sqsSubmitTask ok bodyBytes).1 = [bodyBytes] := by
  intro sendOk ok taskIdBytes bodyBytes
  refine ⟨?_, ?_, ?_, ?_⟩
  · intro hbig
    simp [workerSubmitTask, retry3, azureSubmitOnce, validateMessageSize, hbig]
  · intro hsmall hsend
    have hcond : ¬ bodyBytes > MAX_MESSAGE_SIZE := by omega
    simp [workerSubmitTask, retry3, azureSubmitOnce, validateMessageSize, hcond, hsend]
  · cases ok <;> rfl
  · cases ok <;> rfl

theorem C5_payload_ceiling_witness :
    65537 > MAX_MESSAGE_SIZE ∧
    workerSubmitTask (fun _ => true) 36 65537 =
      { sent := [], sleeps := [1, 2],
        outcome := .error ("Message too large: " ++ toString 65537 ++
          " bytes (max " ++ toString MAX_MESSAGE_SIZE ++ " bytes)") } :=
  ⟨by decide,
    (C5_payload_ceiling (fun _ => true) true 36 65537).1 (by decide)⟩

/-- C5 counterexample: a task whose wire envelope `"<task_id>|<json>"` takes
36 + 1 + 65536 = 65573 bytes (over the 64 KiB = 65536-byte ceiling) passes the
worker revision's validation — which measures only the 65536-byte JSON body —
and is sent to the transport with a successful outcome, instead of failing
before any network send; the backend revision sends a 70037-byte envelope for
a 70000-byte body with no check at all. -/
theorem C5_payload_ceiling_counterexample :
    36 + 1 + 65536 > MAX_MESSAGE_SIZE ∧
    workerSubmitTask (fun _ => true) 36 65536 =
      { sent := [36 + 1 + 65536], sleeps := [], outcome := .ok () } ∧
    backendSubmitTask true 36 70000 = ([36 + 1 + 70000], .ok ()) := by
  refine ⟨by decide, ?_, rfl⟩
  rfl

/-! ## Theorems: vector-store failure semantics (C7) -/

/-- C7 (amended): read paths degrade to an empty result set — `search` returns
`[]` when the pool is unavailable, the query embedding fails, or the query
fails, and `list_documents` returns `[]` when the pool is unavailable or the
query fails — and write failures raised during SQL execution propagate as
errors with the store unchanged; but when the connection pool itself cannot
be created (`get_pool()` returns `None`), `upsert_vectors` and
`delete_document` return silently with no error and no effect, so that class
of write is dropped rather than propagated. -/
theorem C7_read_write_failure_semantics :
    ∀ (env : DBEnv) (rows : List ScoredRow) (store points : List Point)
      (lim off : Nat) (ds f : String),
      (env.poolOk = false ∨ env.embedOk = false ∨ env.queryOk = false →
        vdbSearch env rows lim ds = []) ∧
      (env.poolOk = false ∨ env.queryOk = false →
        vdbListDocuments env store lim off = []) ∧
      (env.poolOk = true → env.queryOk = false →
        (∃ e, vdbUpsertVectors env points store = (.error e, store)) ∨ points = []) ∧
      (env.poolOk = true → env.queryOk = false →
        vdbDeleteDocument env f ds store = (.error "Delete failed", store)) ∧
      (env.poolOk = false →
        vdbUpsertVectors env points store = (.ok (), store) ∧
        vdbDeleteDocument env f ds store = (.ok (), store)) := by
  intro env rows store points lim off ds f
  refine ⟨?_, ?_, ?_, ?_, ?_⟩
  · intro h
    rcases h with h | h | h <;> simp [vdbSearch, h]
  · intro h
    rcases h with h | h <;> simp [vdbListDocuments, h]
  · intro hpool hq
    by_cases hpts : points = []
    · exact Or.inr hpts
    · left
      by_cases hschema : env.schemaVerified = false
      · exact ⟨"Failed to ensure vector table exists", by
          simp [vdbUpsertVectors, hpool, hq, hschema]⟩
      · exact ⟨"Upsert failed", by
          simp [vdbUpsertVectors, hpool, hq, hschema, hpts]⟩
  · intro hpool hq
    simp [vdbDeleteDocument, hpool, hq]
  · intro hpool
    constructor
    · simp [vdbUpsertVectors, hpool]
    · simp [vdbDeleteDocument, hpool]

theorem C7_read_write_failure_semantics_witness :
    dbEnvNoPool.poolOk = false ∧
    vdbSearch dbEnvNoPool [] 5 "all" = [] ∧
    vdbUpsertVectors dbEnvNoPool [] [] = (.ok (), []) ∧
    vdbDeleteDocument dbEnvNoPool "a.txt" "all" [] = (.ok (), []) :=
  ⟨rfl,
    (C7_read_write_failure_semantics dbEnvNoPool [] [] [] 5 0 "all" "a.txt").1
      (Or.inl rfl),
    ((C7_read_write_failure_semantics dbEnvNoPool [] [] [] 5 0 "all" "a.txt").2.2.2.2
      rfl).1,
    ((C7_read_write_failure_semantics dbEnvNoPool [] [] [] 5 0 "all" "a.txt").2.2.2.2
      rfl).2⟩

/-- C7 counterexample: with the connection pool unavailable, upserting a
non-empty batch returns `(.ok (), store)` — no exception propagates to the
caller and the store is unchanged, i.e. the write is silently dropped —
contradicting the claim that every backend failure on a write path propagates
as an error. The same holds for `delete_document`. -/
theorem C7_read_write_failure_semantics_counterexample :
    vdbUpsertVectors dbEnvNoPool
        [{ pid := "p1", vector := [1], filename := "a.txt",
           documentSet := "demo", content := "c" }] [] = (.ok (), []) ∧
    vdbDeleteDocument dbEnvNoPool "a.txt" "demo"
        [{ pid := "p1", vector := [1], filename := "a.txt",
           documentSet := "demo", content := "c" }] =
      (.ok (), [{ pid := "p1", vector := [1], filename := "a.txt",
                  documentSet := "demo", content := "c" }]) := by
  exact ⟨rfl, rfl⟩

/-! ## Theorems: search grouping (C4) -/

theorem firstOccurrences_nodup (l : List String) : (firstOccurrences l).Nodup := by
  induction l with
  | nil => simp [firstOccurrences]
  | cons f rest ih =>
    simp only [firstOccurrences]
    rw [List.nodup_cons]
    refine ⟨?_, ih.filter _⟩
    intro hmem
    rcases List.mem_filter.mp hmem with ⟨_, hne⟩
    simp at hne

theorem firstOccurrences_mem {l : List String} {x : String} :
    x ∈ firstOccurrences l ↔ x ∈ l := by
  induction l with
  | nil => simp [firstOccurrences]
  | cons f rest ih =>
    simp only [firstOccurrences, List.mem_cons, List.mem_filter, ih]
    constructor
    · rintro (h | ⟨h, _⟩)
      · exact Or.inl h
      · exact Or.inr h
    · rintro (h | h)
      · exact Or.inl h
      · by_cases hx : x = f
        · exact Or.inl hx
        · exact Or.inr ⟨h, by simpa using hx⟩

theorem sortByScoreDesc_sorted (rows : List ScoredRow) :
    List.Sorted scoreGe (sortByScoreDesc rows) :=
  List.sorted_insertionSort scoreGe rows

theorem queryPointsGroups_keys (rows : List ScoredRow) (lim gs : Nat) :
    (queryPointsGroups rows lim gs).map Prod.fst =
      (firstOccurrences ((sortByScoreDesc rows).map (fun r => r.filename))).take lim := by
  unfold queryPointsGroups
  simp only [List.map_map]
  rw [show (Prod.fst ∘ fun f =>
      (f, List.take gs (List.filter (fun r => r.filename == f) (sortByScoreDesc rows)))) =
      fun a : String => a from rfl, List.map_id']

theorem queryPointsGroups_nodup_keys (rows : List ScoredRow) (lim gs : Nat) :
    ((queryPointsGroups rows lim gs).map Prod.fst).Nodup := by
  rw [queryPointsGroups_keys]
  exact (List.take_sublist _ _).nodup (firstOccurrences_nodup _)

theorem queryPointsGroups_length (rows : List ScoredRow) (lim gs : Nat) :
    (queryPointsGroups rows lim gs).length ≤ lim := by
  unfold queryPointsGroups
  rw [List.length_map]
  exact le_trans (List.length_take_le _ _) (le_refl _)

theorem queryPointsGroups_props (rows : List ScoredRow) (lim gs : Nat) :
    ∀ g ∈ queryPointsGroups rows lim gs,
      g.2.length ≤ gs ∧ (∀ r ∈ g.2, r.filename = g.1) ∧ List.Sorted scoreGe g.2 := by
  intro g hg
  unfold queryPointsGroups at hg
  rcases List.mem_map.mp hg with ⟨f, hf, rfl⟩
  refine ⟨List.length_take_le _ _, ?_, ?_⟩
  · intro r hr
    rcases List.mem_filter.mp ((List.take_subset _ _) hr) with ⟨_, hfn⟩
    simpa using hfn
  · exact List.Pairwise.sublist (List.take_sublist _ _)
      (List.Pairwise.filter _ (sortByScoreDesc_sorted rows))

theorem grouped_filter_bound (f : String) (gs : Nat) :
    ∀ (G : List (String × List ScoredRow)),
      (G.map Prod.fst).Nodup →
      (∀ g ∈ G, ∀ r ∈ g.2, r.filename = g.1) →
      (∀ g ∈ G, g.2.length ≤ gs) →
      (((G.map (fun g => g.2.map toDocHit)).flatten).filter
        (fun h => h.filename == f)).length ≤ gs := by
  intro G
  induction G with
  | nil => simp
  | cons g grest ih =>
    intro hnd hfn hlen
    rw [List.map_cons, List.flatten_cons, List.filter_append, List.length_append]
    have hnd' : (grest.map Prod.fst).Nodup := (List.nodup_cons.mp (by simpa using hnd)).2
    by_cases hf : g.1 = f
    · have hrest : ((grest.map (fun g => g.2.map toDocHit)).flatten).filter
          (fun h => h.filename == f) = [] := by
        rw [List.filter_eq_nil_iff]
        intro h hh
        rcases List.mem_flatten.mp hh with ⟨s, hs, hhs⟩
        rcases List.mem_map.mp hs with ⟨g', hg', rfl⟩
        rcases List.mem_map.mp hhs with ⟨r, hr, rfl⟩
        have h1 : r.filename = g'.1 := hfn g' (List.mem_cons_of_mem _ hg') r hr
        have h2 : g'.1 ≠ f := by
          intro he
        -- g.1 = f = g'.1 would duplicate the key f
          have : g.1 ∈ grest.map Prod.fst := by
            rw [hf, ← he]
            exact List.mem_map_of_mem Prod.fst hg'
          exact (List.nodup_cons.mp (by simpa using hnd)).1 this
        simp [toDocHit, h1, h2]
      rw [hrest]
      simp only [List.length_nil, Nat.add_zero]
      calc ((g.2.map toDocHit).filter (fun h => h.filename == f)).length
          ≤ (g.2.map toDocHit).length := List.length_filter_le _ _
        _ = g.2.length := List.length_map _ _
        _ ≤ gs := hlen g (List.mem_cons_self _ _)
    · have hg0 : (g.2.map toDocHit).filter (fun h => h.filename == f) = [] := by
        rw [List.filter_eq_nil_iff]
        intro h hh
        rcases List.mem_map.mp hh with ⟨r, hr, rfl⟩
        have h1 : r.filename = g.1 := hfn g (List.mem_cons_self _ _) r hr
        simp [toDocHit, h1, hf]
      rw [hg0]
      simp only [List.length_nil, Nat.zero_add]
      exact ih hnd' (fun g' hg' => hfn g' (List.mem_cons_of_mem _ hg'))
        (fun g' hg' => hlen g' (List.mem_cons_of_mem _ hg'))

theorem pgTop_length (rows : List ScoredRow) (lim : Nat) :
    (((sortByScoreDesc rows).take lim).map toSearchHit).length ≤ lim := by
  rw [List.length_map]
  exact List.length_take_le _ _

theorem pgTop_sorted (rows : List ScoredRow) (lim : Nat) :
    List.Sorted hitScoreGe (((sortByScoreDesc rows).take lim).map toSearchHit) :=
  List.Pairwise.map toSearchHit (fun _ _ h => h)
    (List.Pairwise.sublist (List.take_sublist _ _) (sortByScoreDesc_sorted rows))

/-- C4 (amended): the Qdrant-backed `search_documents` groups by document:
it returns at most `limit` groups with pairwise-distinct filenames, every hit
of a group carries the group's filename, each group holds at most the fixed
fan-out of 3 chunks sorted by descending similarity, so the flattened result
covers at most `limit` distinct filename values with at most 3 chunks per
document. The Postgres-backed `VectorDBService.search`, however, implements a
different contract: it returns the top `limit` chunk rows ordered by
descending similarity with no grouping, so a single document may contribute
up to `limit` chunks (the claim's uniform-grouping contract fails there, see
the counterexample). -/
theorem C4_search_grouping :
    ∀ (ok : Bool) (rows : List ScoredRow) (lim : Nat) (f : String) (env : DBEnv)
      (ds : String),
      ((searchDocuments ok rows lim).map DocHit.filename).dedup.length ≤ lim ∧
      ((searchDocuments ok rows lim).filter (fun h => h.filename == f)).length ≤ 3 ∧
      (∀ g ∈ queryPointsGroups rows lim 3,
        g.2.length ≤ 3 ∧ (∀ r ∈ g.2, r.filename = g.1) ∧ List.Sorted scoreGe g.2) ∧
      ((queryPointsGroups rows lim 3).map Prod.fst).Nodup ∧
      (vdbSearch env rows lim ds).length ≤ lim ∧
      List.Sorted hitScoreGe (vdbSearch env rows lim ds) := by
  intro ok rows lim f env ds
  refine ⟨?_, ?_, queryPointsGroups_props rows lim 3,
    queryPointsGroups_nodup_keys rows lim 3, ?_, ?_⟩
  · by_cases hok : ok = false
    · simp [searchDocuments, hok]
    · have hsd : searchDocuments ok rows lim =
          ((queryPointsGroups rows lim 3).map (fun g => g.2.map toDocHit)).flatten := by
        simp [searchDocuments, hok]
      rw [hsd]
      have hsub : ((((queryPointsGroups rows lim 3).map
          (fun g => g.2.map toDocHit)).flatten).map DocHit.filename).dedup ⊆
          (queryPointsGroups rows lim 3).map Prod.fst := by
        intro x hx
        rcases List.mem_map.mp (List.mem_dedup.mp hx) with ⟨h, hh, rfl⟩
        rcases List.mem_flatten.mp hh with ⟨s, hs, hhs⟩
        rcases List.mem_map.mp hs with ⟨g, hg, rfl⟩
        rcases List.mem_map.mp hhs with ⟨r, hr, rfl⟩
        have hr1 : r.filename = g.1 :=
          (queryPointsGroups_props rows lim 3 g hg).2.1 r hr
        have : DocHit.filename (toDocHit r) = g.1 := hr1
        rw [this]
        exact List.mem_map_of_mem Prod.fst hg
      have hnd := List.nodup_dedup ((((queryPointsGroups rows lim 3).map
        (fun g => g.2.map toDocHit)).flatten).map DocHit.filename)
      calc ((((queryPointsGroups rows lim 3).map
            (fun g => g.2.map toDocHit)).flatten).map DocHit.filename).dedup.length
          ≤ ((queryPointsGroups rows lim 3).map Prod.fst).length :=
            (hnd.subperm hsub).length_le
        _ = (queryPointsGroups rows lim 3).length := List.length_map _ _
        _ ≤ lim := queryPointsGroups_length rows lim 3
  · by_cases hok : ok = false
    · simp [searchDocuments, hok]
    · have hsd : searchDocuments ok rows lim =
          ((queryPointsGroups rows lim 3).map (fun g => g.2.map toDocHit)).flatten := by
        simp [searchDocuments, hok]
      rw [hsd]
      exact grouped_filter_bound f 3 (queryPointsGroups rows lim 3)
        (queryPointsGroups_nodup_keys rows lim 3)
        (fun g hg => (queryPointsGroups_props rows lim 3 g hg).2.1)
        (fun g hg => (queryPointsGroups_props rows lim 3 g hg).1)
  · unfold vdbSearch
    by_cases h1 : env.poolOk = false
    · simp [h1]
    · by_cases h2 : env.embedOk = false
      · simp [h1, h2]
      · by_cases h3 : env.queryOk = false
        · simp [h1, h2, h3]
        · simp only [h1, h2, h3, if_false]
          by_cases h4 : ds ≠ "" ∧ ds ≠ "all"
          · rw [if_pos h4]
            exact pgTop_length _ lim
          · rw [if_neg h4]
            exact pgTop_length _ lim
  · unfold vdbSearch
    by_cases h1 : env.poolOk = false
    · simp [h1]
    · by_cases h2 : env.embedOk = false
      · simp [h1, h2]
      · by_cases h3 : env.queryOk = false
        · simp [h1, h2, h3]
        · simp only [h1, h2, h3, if_false]
          by_cases h4 : ds ≠ "" ∧ ds ≠ "all"
          · rw [if_pos h4]
            exact pgTop_sorted _ lim
          · rw [if_neg h4]
            exact pgTop_sorted _ lim

theorem C4_search_grouping_witness :
    (("a", (sortByScoreDesc rowsA5).take 3) ∈ queryPointsGroups rowsA5 5 3) ∧
    (("a", (sortByScoreDesc rowsA5).take 3).2.length ≤ 3 ∧
      (∀ r ∈ ("a", (sortByScoreDesc rowsA5).take 3).2, r.filename = ("a", (sortByScoreDesc rowsA5).take 3).1) ∧
      List.Sorted scoreGe ("a", (sortByScoreDesc rowsA5).take 3).2) ∧
    ((searchDocuments true rowsA5 5).map DocHit.filename).dedup.length ≤ 5 :=
  ⟨by decide,
    (C4_search_grouping true rowsA5 5 "a" dbEnvOk "all").2.2.1
      ("a", (sortByScoreDesc rowsA5).take 3) (by decide),
    (C4_search_grouping true rowsA5 5 "a" dbEnvOk "all").1⟩

/-- C4 counterexample: on five chunks of one document `"a"`, a search with
`limit = 5` against the Postgres backend (`VectorDBService.search`) returns
all five chunks of that single document — more than the claimed fixed
per-document fan-out of 3 — while the Qdrant grouped search returns only 3,
so the grouping behaviour is not the same contract across the interchangeable
backends, refuting the claim as stated. -/
theorem C4_search_grouping_counterexample :
    ((vdbSearch dbEnvOk rowsA5 5 "all").filter (fun h => h.filename == "a")).length = 5 ∧
    ¬ ((vdbSearch dbEnvOk rowsA5 5 "all").filter (fun h => h.filename == "a")).length ≤ 3 ∧
    (searchDocuments true rowsA5 5).length = 3 := by
  refine ⟨by decide, by decide, by decide⟩

/-! ## Theorems: ingestion idempotency (C1) -/

theorem runBatchesProc_eq (points : List Point) :
    ∀ (starts : List Nat) (store : List Point) (calls : List Nat),
      runBatchesProc points starts store calls = (store, calls ++ starts) := by
  intro starts
  induction starts with
  | nil =>
    intro store calls
    simp [runBatchesProc]
  | cons i rest ih =>
    intro store calls
    unfold runBatchesProc
    rw [ih]
    simp

theorem procAfterSource_store_unchanged (env : PipeEnv) (f ds : String) (b : Bool)
    (store : List Point) : (procAfterSource env f ds b store).store = store := by
  unfold procAfterSource
  repeat' first
    | split
    | simp [procEarly]
    | simp_all [runBatchesProc_eq]

theorem processFile_store_unchanged (env : PipeEnv) (f : String) (cl : Option Nat)
    (fp : Option String) (ds : String) (store : List Point) :
    (processFile env f cl fp ds store).store = store := by
  unfold processFile
  repeat' first
    | exact procAfterSource_store_unchanged _ _ _ _ _
    | split
    | simp [procEarly]

/-- C1 (amended): re-ingestion through `ingest_docs_task` is skipped before
any conversion, embedding, or upsert whenever the store already holds chunks
whose `filename` matches — the call returns `Skipped <filename>: Already
indexed.` and adds no chunks — but the deduplication check keys on the
filename alone, not on the `(filename, document_set)` pair (see the
counterexample). `IngestionService.process_file` performs no deduplication
check at all, and, because it calls the async `upsert_vectors` without
`await`, it never writes any chunks either: every call leaves the store
unchanged, and re-ingesting a pair returns `Indexed` again, not `Skipped`. -/
theorem C1_ingest_dedup_skips :
    (∀ (env : PipeEnv) (item : FileItem) (store : List Point),
      env.countOk = true → 0 < qdrantCountByFilename store item.filename →
      ingestDocsOne env item store =
        earlyExit ("Skipped " ++ item.filename ++ ": Already indexed.")
          store false false) ∧
    (∀ (env : PipeEnv) (f : String) (cl : Option Nat) (fp : Option String)
      (ds : String) (store : List Point),
      (processFile env f cl fp ds store).store = store) := by
  constructor
  · intro env item store h1 h2
    unfold ingestDocsOne
    rw [if_pos ⟨h1, h2⟩]
  · exact processFile_store_unchanged

theorem C1_ingest_dedup_skips_witness :
    pipeEnvOk.countOk = true ∧
    0 < qdrantCountByFilename [ptA] (FileItem.mk "a.txt" (some 5) none (some "y")).filename ∧
    ingestDocsOne pipeEnvOk (FileItem.mk "a.txt" (some 5) none (some "y")) [ptA] =
      earlyExit ("Skipped " ++ (FileItem.mk "a.txt" (some 5) none (some "y")).filename ++
        ": Already indexed.") [ptA] false false :=
  ⟨rfl, by decide,
    C1_ingest_dedup_skips.1 pipeEnvOk (FileItem.mk "a.txt" (some 5) none (some "y"))
      [ptA] rfl (by decide)⟩

/-- C1 counterexample: the store holds chunks of `a.txt` only under document
set `"x"`, so the pair `("a.txt", "y")` is not indexed; yet ingesting
`("a.txt", "y")` through `ingest_docs_task` is skipped as already indexed —
the check keys on the filename alone, not on the pair. And
`IngestionService.process_file` neither deduplicates nor indexes: ingesting
the same `("a.txt", "demo")` pair twice returns `Indexed a.txt: 1 chunks.`
both times — the second call does not detect anything and does not return
`Skipped` — while the store stays empty after both calls, because the
un-awaited async `upsert_vectors` never writes; so neither the `Skipped`
second call nor "exactly one set of indexed chunks" holds of that revision. -/
theorem C1_ingest_dedup_skips_counterexample :
    ([ptA].all (fun p => !(p.filename == "a.txt" && p.documentSet == "y")) = true) ∧
    ingestDocsOne pipeEnvOk (FileItem.mk "a.txt" (some 5) none (some "y")) [ptA] =
      earlyExit ("Skipped " ++ "a.txt" ++ ": Already indexed.") [ptA] false false ∧
    (processFile pipeEnvOk "a.txt" (some 5) none "demo" []).result =
      .ok ("Indexed a.txt: 1 chunks.") ∧
    (processFile pipeEnvOk "a.txt" (some 5) none "demo" []).store = [] ∧
    (processFile pipeEnvOk "a.txt" (some 5) none "demo"
        (processFile pipeEnvOk "a.txt" (some 5) none "demo" []).store).result =
      .ok ("Indexed a.txt: 1 chunks.") ∧
    (processFile pipeEnvOk "a.txt" (some 5) none "demo"
        (processFile pipeEnvOk "a.txt" (some 5) none "demo" []).store).store = [] := by
  refine ⟨by decide, by decide, rfl, rfl, rfl, rfl⟩

/-! ## Theorems: batched-upsert partial failure (C2) -/

/-- C2 (amended): in `ingest_docs_task`, a failing first batch (start index 0)
aborts the whole upsert with the error and no further batches are attempted,
while a failing later batch is only logged — the loop continues with the
remaining batches and already-upserted batches are not rolled back — yet the
returned outcome is the plain `Indexed <filename>: N chunks.`, which does not
note the failure (see the counterexample). In `IngestionService.process_file`
the claimed semantics cannot occur at all: the loop iterates over every batch
start but calls the async `upsert_vectors` without `await`, so no batch is
ever executed or can fail, nothing is written, and the store passes through
unchanged. -/
theorem C2_batch_upsert_semantics :
    (∀ (env : PipeEnv) (points : List Point) (rest : List Nat)
        (store : List Point) (calls : List Nat) (e : String),
      env.upsert 0 = .error e →
      runBatchesIngest env points (0 :: rest) store calls =
        (.error e, store, calls ++ [0])) ∧
    (∀ (env : PipeEnv) (points : List Point) (i : Nat) (rest : List Nat)
        (store : List Point) (calls : List Nat) (e : String),
      env.upsert i = .error e → i ≠ 0 →
      runBatchesIngest env points (i :: rest) store calls =
        runBatchesIngest env points rest store (calls ++ [i])) ∧
    (∀ (env : PipeEnv) (points : List Point) (i : Nat) (rest : List Nat)
        (store : List Point) (calls : List Nat),
      env.upsert i = .ok () →
      runBatchesIngest env points (i :: rest) store calls =
        runBatchesIngest env points rest (store ++ (points.drop i).take 64)
          (calls ++ [i])) ∧
    (∀ (points : List Point) (starts : List Nat) (store : List Point)
        (calls : List Nat),
      runBatchesProc points starts store calls = (store, calls ++ starts)) := by
  refine ⟨?_, ?_, ?_, ?_⟩
  · intro env points rest store calls e he
    unfold runBatchesIngest
    rw [he]
    simp
  · intro env points i rest store calls e he hi
    conv_lhs => rw [runBatchesIngest]
    rw [he]
    simp [hi]
  · intro env points i rest store calls he
    conv_lhs => rw [runBatchesIngest]
    rw [he]
  · exact runBatchesProc_eq

theorem C2_batch_upsert_semantics_witness :
    pipeEnvUps0Fail.upsert 0 = .error "boom0" ∧
    runBatchesIngest pipeEnvUps0Fail [] [0, 64] [] [] = (.error "boom0", [], [0]) ∧
    pipeEnv200.upsert 64 = .error "boom" ∧
    runBatchesIngest pipeEnv200 [] [64] [] [] = runBatchesIngest pipeEnv200 [] [] [] [64] ∧
    runBatchesProc [] [0, 64] [] [] = ([], [0, 64]) :=
  ⟨rfl,
    C2_batch_upsert_semantics.1 pipeEnvUps0Fail [] [64] [] [] "boom0" rfl,
    rfl,
    C2_batch_upsert_semantics.2.1 pipeEnv200 [] 64 [] [] [] "boom" rfl (by decide),
    C2_batch_upsert_semantics.2.2.2 [] [0, 64] [] []⟩

set_option maxRecDepth 20000 in
/-- C2 counterexample: a 200-chunk ingestion (batches starting at 0, 64, 128,
192) whose second batch fails on the backend. In `ingest_docs_task` all four
batches are attempted and the three successful ones (136 chunks) stay in the
store — but the returned outcome is `Indexed f.pdf: 200 chunks.`, which does
not note the upsert failure, refuting that part of the claim. In
`IngestionService.process_file` the claimed partial-failure semantics is
unreachable: even against the same failing backend the call reports
`Indexed f.pdf: 200 chunks.` after iterating all four batch starts, and the
store stays empty, because the un-awaited async `upsert_vectors` never runs
and can never raise. -/
theorem C2_batch_upsert_semantics_counterexample :
    (ingestDocsOne pipeEnv200 (FileItem.mk "f.pdf" (some 5) none (some "demo")) []).upsertCalls
      = [0, 64, 128, 192] ∧
    (ingestDocsOne pipeEnv200 (FileItem.mk "f.pdf" (some 5) none (some "demo")) []).store.length
      = 136 ∧
    (ingestDocsOne pipeEnv200 (FileItem.mk "f.pdf" (some 5) none (some "demo")) []).result
      = "Indexed f.pdf: 200 chunks." ∧
    pipeEnv200.upsert 64 = .error "boom" ∧
    (processFile pipeEnv200 "f.pdf" (some 5) none "demo" []).result =
      .ok ("Indexed f.pdf: 200 chunks.") ∧
    (processFile pipeEnv200 "f.pdf" (some 5) none "demo" []).upsertCalls
      = [0, 64, 128, 192] ∧
    (processFile pipeEnv200 "f.pdf" (some 5) none "demo" []).store = [] := by
  refine ⟨by decide, rfl, rfl, rfl, rfl, by decide, rfl⟩

/-! ## Theorems: embedding retry (C8) -/

theorem procAfterSource_embedCalls_le (env : PipeEnv) (f ds : String) (b : Bool)
    (store : List Point) : (procAfterSource env f ds b store).embedCalls ≤ 1 := by
  unfold procAfterSource
  repeat' split
  all_goals try simp [procEarly]
  all_goals repeat' split
  all_goals simp [procEarly]

theorem processFile_embedCalls_le (env : PipeEnv) (f : String) (cl : Option Nat)
    (fp : Option String) (ds : String) (store : List Point) :
    (processFile env f cl fp ds store).embedCalls ≤ 1 := by
  unfold processFile
  repeat' split
  all_goals first
    | simp [procEarly]
    | exact procAfterSource_embedCalls_le _ _ _ _ _

/-- C8 (amended): in `ingest_docs_task` the embedding call is attempted up to
3 times, sleeping 2s after the first failure and 4s after the second
(`2 * (attempt + 1)`: the delay doubles across the two delays that occur — no
third delay exists, since the third failure raises); a success stops
retrying; the third failure surfaces as the returned `Failed <filename>`
outcome rather than an escaping exception; and on success exactly one vector
is paired with each chunk. In `IngestionService.process_file`, however, the
embedding call is made exactly once — that revision does not retry (see the
counterexample). -/
theorem C8_embedding_retry :
    (∀ (env : PipeEnv) (v : List Vec), env.embedTry 0 = .ok v →
      embedStage env = (.ok v, 1, [])) ∧
    (∀ (env : PipeEnv) (e0 : String) (v : List Vec),
      env.embedTry 0 = .error e0 → env.embedTry 1 = .ok v →
      embedStage env = (.ok v, 2, [2])) ∧
    (∀ (env : PipeEnv) (e0 e1 : String) (v : List Vec),
      env.embedTry 0 = .error e0 → env.embedTry 1 = .error e1 →
      env.embedTry 2 = .ok v → embedStage env = (.ok v, 3, [2, 4])) ∧
    (∀ (env : PipeEnv) (e0 e1 e2 : String),
      env.embedTry 0 = .error e0 → env.embedTry 1 = .error e1 →
      env.embedTry 2 = .error e2 → embedStage env = (.error e2, 3, [2, 4])) ∧
    (∀ (env : PipeEnv) (f ds : String) (chunks : List String) (vecs : List Vec)
      (pts : List Point), buildPoints env f ds chunks vecs = .ok pts →
      pts.length = chunks.length) ∧
    (∀ (env : PipeEnv) (f : String) (cl : Option Nat) (fp : Option String)
      (ds : String) (store : List Point),
      (processFile env f cl fp ds store).embedCalls ≤ 1) ∧
    ingestDocsOne pipeEnvEmbedFail (FileItem.mk "f.pdf" (some 5) none (some "demo")) [] =
      { result := "Failed f.pdf: embed error 2", store := [], sleeps := [2, 4],
        embedCalls := 3, convertCalled := true, upsertCalls := [],
        tempLeaked := false } := by
  refine ⟨?_, ?_, ?_, ?_, ?_, processFile_embedCalls_le, ?_⟩
  · intro env v h0
    unfold embedStage
    rw [h0]
  · intro env e0 v h0 h1
    unfold embedStage
    rw [h0, h1]
  · intro env e0 e1 v h0 h1 h2
    unfold embedStage
    rw [h0, h1, h2]
  · intro env e0 e1 e2 h0 h1 h2
    unfold embedStage
    rw [h0, h1, h2]
  · intro env f ds chunks vecs pts h
    unfold buildPoints at h
    split at h
    · rw [Except.ok.injEq] at h
      subst h
      simp
    · exact absurd h (by simp)
  · rfl

theorem C8_embedding_retry_witness :
    pipeEnvEmbedFail.embedTry 0 = .error "embed error 0" ∧
    pipeEnvEmbedFail.embedTry 1 = .error "embed error 1" ∧
    pipeEnvEmbedFail.embedTry 2 = .error "embed error 2" ∧
    embedStage pipeEnvEmbedFail = (.error "embed error 2", 3, [2, 4]) :=
  ⟨rfl, rfl, rfl,
    C8_embedding_retry.2.2.2.1 pipeEnvEmbedFail "embed error 0" "embed error 1"
      "embed error 2" rfl rfl rfl⟩

/-- C8 counterexample: an embedding service that fails transiently on the
first call and would succeed on the second. Under the claim (retry up to 3
times) this ingestion would succeed, but `IngestionService.process_file`
makes exactly one embedding call and returns the `Embedding failed` outcome
with nothing indexed — the claimed retry policy does not hold for that cited
code path. -/
theorem C8_embedding_retry_counterexample :
    pipeEnvEmbedFlaky.embedTry 0 = .error "transient" ∧
    pipeEnvEmbedFlaky.embedTry 1 = .ok [[1]] ∧
    (processFile pipeEnvEmbedFlaky "a.txt" (some 5) none "demo" []).result =
      .ok ("Embedding failed for a.txt: transient") ∧
    (processFile pipeEnvEmbedFlaky "a.txt" (some 5) none "demo" []).embedCalls = 1 ∧
    (processFile pipeEnvEmbedFlaky "a.txt" (some 5) none "demo" []).store = [] :=
  ⟨rfl, rfl, rfl, rfl, rfl⟩

/-! ## Theorems: scoped temp-file cleanup (C9) -/

theorem ingestAfterSource_no_leak (env : PipeEnv) (f ds : String)
    (store : List Point) : (ingestAfterSource env f ds store).tempLeaked = false := by
  unfold ingestAfterSource
  repeat' split
  all_goals try simp [earlyExit]
  all_goals repeat' split
  all_goals simp [earlyExit]

theorem procAfterSource_no_leak_of_convert_ok (env : PipeEnv) (f ds : String)
    (b : Bool) (store : List Point) (md : String) (hc : env.convert = .ok md) :
    (procAfterSource env f ds b store).tempLeaked = false := by
  unfold procAfterSource
  rw [hc]
  repeat' first
    | split
    | simp [procEarly]
    | simp_all

/-- C9 (amended): in `ingest_docs_task` the artifact is removed by the
`finally` block on every exit path reached after a successful `.xlsx` write —
conversion, chunking, embedding or upsert failures, skips, and success all
leave nothing behind — but a failure of the write itself leaks the
already-created artifact, because `temp_file_to_cleanup` is assigned only
after the writer succeeds. In `IngestionService.process_file` the artifact is
removed only on the success path of the conversion `try`: when
`converter.convert` raises, the call returns `Conversion failed` with the
artifact still on disk (see the counterexample). -/
theorem C9_temp_file_cleanup :
    (∀ (env : PipeEnv) (item : FileItem) (store : List Point),
      env.xlsxWrite = .ok () → (ingestDocsOne env item store).tempLeaked = false) ∧
    (∀ (env : PipeEnv) (f : String) (cl : Option Nat) (fp : Option String)
      (ds : String) (store : List Point) (md : String),
      env.xlsxWrite = .ok () → env.convert = .ok md →
      (processFile env f cl fp ds store).tempLeaked = false) ∧
    (∀ (env : PipeEnv) (f : String) (cl : Option Nat) (fp : Option String)
      (ds : String) (store : List Point) (e : String),
      isXls f = true → env.xlsRead = .ok () → env.xlsxWrite = .ok () →
      env.convert = .error e →
      (processFile env f cl fp ds store).tempLeaked = true ∧
      (processFile env f cl fp ds store).result =
        .ok ("Conversion failed for " ++ f ++ ": " ++ e)) ∧
    (∀ (env : PipeEnv) (item : FileItem) (e : String),
      truthyContent item.contentLen = true → isXls item.filename = true →
      env.xlsRead = .ok () → env.xlsxWrite = .error e →
      (ingestDocsOne env item []).tempLeaked = true) := by
  refine ⟨?_, ?_, ?_, ?_⟩
  · intro env item store hw
    unfold ingestDocsOne
    repeat' first
      | exact ingestAfterSource_no_leak _ _ _ _
      | split
      | simp [earlyExit]
      | simp_all
  · intro env f cl fp ds store md hw hc
    unfold processFile
    repeat' first
      | exact procAfterSource_no_leak_of_convert_ok _ _ _ _ _ _ hc
      | split
      | simp [procEarly]
      | simp_all
  · intro env f cl fp ds store e hx hr hw hc
    constructor
    · simp [processFile, procAfterSource, procEarly, hx, hr, hw, hc]
    · simp [processFile, procAfterSource, procEarly, hx, hr, hw, hc]
  · intro env item e htr hx hr hw
    simp [ingestDocsOne, qdrantCountByFilename, htr, hx, hr, hw, earlyExit]

theorem C9_temp_file_cleanup_witness :
    isXls "b.xls" = true ∧
    pipeEnvConvFail.xlsRead = .ok () ∧
    pipeEnvConvFail.xlsxWrite = .ok () ∧
    pipeEnvConvFail.convert = .error "conversion boom" ∧
    (processFile pipeEnvConvFail "b.xls" (some 5) none "demo" []).tempLeaked = true ∧
    (processFile pipeEnvConvFail "b.xls" (some 5) none "demo" []).result =
      .ok ("Conversion failed for " ++ "b.xls" ++ ": " ++ "conversion boom") :=
  ⟨by decide, rfl, rfl, rfl,
    (C9_temp_file_cleanup.2.2.1 pipeEnvConvFail "b.xls" (some 5) none "demo" []
      "conversion boom" (by decide) rfl rfl rfl).1,
    (C9_temp_file_cleanup.2.2.1 pipeEnvConvFail "b.xls" (some 5) none "demo" []
      "conversion boom" (by decide) rfl rfl rfl).2⟩

/-- C9 counterexample: ingesting a legacy `b.xls` through
`IngestionService.process_file` when document conversion raises: the call
returns the `Conversion failed` outcome but the temporary `.xlsx` artifact
created by pre-normalization is left on the filesystem (`tempLeaked = true`),
refuting cleanup on the conversion-exception exit path. -/
theorem C9_temp_file_cleanup_counterexample :
    processFile pipeEnvConvFail "b.xls" (some 5) none "demo" [] =
      { result := .ok "Conversion failed for b.xls: conversion boom", store := [],
        embedCalls := 0, convertCalled := true, upsertCalls := [],
        tempLeaked := true } := by
  rfl
